import Mathlib

/-
Verification of the USDC payment pipeline of promptr (src/app.js).

The remote world (RPC node, facilitator) is modelled as an oracle `Env` of
responses; `verifyUSDCTransfer` is a shallow embedding of the function of the
same name (app.js:227-446) returning the JS verdict (true / false / null as
confirmed / rejected / inconclusive) together with the ordered list of remote
calls it performed. The associated-token-address derivation
(getAssociatedTokenAddressSync, app.js:190-201) is embedded at the byte level,
parameterized by the pure library primitives (sha256 and the curve-membership
test) and the library program-id constants.
-/

namespace Promptr

/-- Confirmation tiers reported by the chain for a signature
(app.js:261: processed, confirmed or finalized). -/
inductive ConfStatus
  | processed
  | confirmed
  | finalized
deriving DecidableEq, Repr

/-- Signature status as used by app.js:249-266: an optional confirmation tier
plus the on-chain error flag (sigStatus.err truthy). -/
structure SigStatus where
  confirmationStatus : Option ConfStatus
  err : Bool
deriving DecidableEq, Repr

/-- Result of a remote call that may throw. A thrown error is classified as
rate-limit-shaped when its message contains 429 / Too Many Requests /
rate limit (app.js:241, 274), and as other otherwise. -/
inductive RpcResult (α : Type)
  | ok (value : α)
  | rateLimited
  | errored
deriving DecidableEq, Repr

/-- Amount field of provider JSON: absent (the source substitutes the string 0
via the or-default at app.js:349/399/421), a numeric string, or a malformed
string on which the BigInt conversion throws. -/
inductive AmountField
  | missing
  | num (n : Nat)
  | malformed
deriving DecidableEq, Repr

/-- BigInt(field or "0"): 0 when absent, the value when numeric, a thrown
RangeError (modelled as Except.error) when malformed. -/
def parseAmount : AmountField → Except Unit Nat
  | .missing => .ok 0
  | .num n => .ok n
  | .malformed => .error ()

/-- One pre/post token balance entry of a parsed transaction, with the
duck-typed account fields the source probes (app.js:333-342). -/
structure TokenBalance where
  pubkey : Option String := none
  accountIndex : Option Nat := none
  accountId : Option String := none
  account : Option String := none
  owner : Option String := none
  mint : String
  amount : AmountField := .missing
deriving DecidableEq, Repr

/-- Parsed-instruction info object (inst.parsed.info or empty), with the
alternative field names the two fallback scans probe (app.js:398-401, 420-422). -/
structure ParsedInfo where
  mint : Option String := none
  amount : AmountField := .missing
  source : Option String := none
  fromField : Option String := none
  account : Option String := none
  destination : Option String := none
  toField : Option String := none
deriving DecidableEq, Repr

/-- A parsed instruction: its type string and info object. -/
structure ParsedInst where
  type : String
  info : ParsedInfo
deriving DecidableEq, Repr

/-- An instruction of the transaction; none models an instruction without a
parsed representation (skipped at app.js:396/419). -/
def Instruction : Type := Option ParsedInst
deriving instance DecidableEq, Repr for Instruction

/-- The chain record of a confirmed transaction, as consumed by the verifier:
meta error flag, token balances, account keys, top-level parsed instructions
and inner-instruction groups (app.js:301-433). -/
structure ParsedTx where
  metaErr : Bool
  preTokenBalances : List TokenBalance
  postTokenBalances : List TokenBalance
  accountKeys : List String
  instructions : List Instruction
  innerInstructions : List (List Instruction)
deriving DecidableEq, Repr

/-- Response of the raw getTransaction fallback (app.js:283-298): a thrown
rate-limit error, another thrown error, a body carrying data.error, a body with
neither error nor result, or a result transaction. -/
inductive RawResp
  | rateLimited
  | errored
  | dataError
  | noResult
  | result (tx : ParsedTx)
deriving DecidableEq, Repr

/-- Facilitator verify response (app.js:373-381): body with valid true, body
with valid falsy, or a thrown error (timeout, non-2xx, unreachable). -/
inductive FacResult
  | valid
  | invalid
  | unreachable
deriving DecidableEq, Repr

/-- Oracle of remote responses for one verification run. -/
structure Env where
  sigResp : RpcResult (Option SigStatus)
  txResp : RpcResult (Option ParsedTx)
  rawResp : RawResp
  facResp : FacResult
deriving DecidableEq, Repr

/-- Verdict of verifyUSDCTransfer: JS true, false, null. -/
inductive Verdict
  | confirmed
  | rejected
  | inconclusive
deriving DecidableEq, Repr

/-- Tags for the remote calls verifyUSDCTransfer can make, in the order they
appear in the source. -/
inductive Call
  | getSignatureStatuses
  | getParsedTransaction
  | rawGetTransaction
  | facilitatorVerify
deriving DecidableEq, Repr

/-- USDC mint constant (app.js:219). -/
def USDC_MINT : String := "EPjFWdd5AufqSSqeM2qN1xzybapC8G4wEGGkZwyTDt1v"

/-- Fixed receiver wallet (app.js:222). -/
def X402_RECEIVER_ADDRESS : String := "3LrVwGYoqUgvwUadaCrkpqBNqkgVcWpac7CYM99KbQHk"

/-- resolveAccountPubkey (app.js:333-342): entry.pubkey, else the account-key
list indexed by entry.accountIndex (null when out of range), else
entry.accountId, else entry.account, else null. -/
def resolveAccountPubkey (accountKeys : List String) (entry : TokenBalance) : Option String :=
  match entry.pubkey with
  | some pk => some pk
  | none =>
    match entry.accountIndex with
    | some i => accountKeys.get? i
    | none =>
      match entry.accountId with
      | some a => some a
      | none => entry.account

/-- Which pre-balance entry the balance-diff scan compares a post entry against
(app.js:351-362). Outer none: the post entry is not receiver-related and the
loop continues. Inner none: no pre entry matched, so the zero-amount default
entry is used. When the owner field equals the receiver, the pre entry is
located by owner equality; in the ATA / raw-address branches it is located by
the resolved account pubkey. -/
def selectPre (accountKeys : List String) (pre : List TokenBalance) (receiver : String)
    (receiverATA : Option String) (p : TokenBalance) : Option (Option TokenBalance) :=
  let accountPubkey := resolveAccountPubkey accountKeys p
  if p.owner = some receiver then
    some (pre.find? fun x => x.owner == p.owner)
  else if receiverATA ≠ none ∧ (accountPubkey = receiverATA ∨ accountPubkey = some receiver) then
    some (pre.find? fun x => resolveAccountPubkey accountKeys x == accountPubkey)
  else if accountPubkey ≠ none ∧ accountPubkey = some receiver then
    some (pre.find? fun x => resolveAccountPubkey accountKeys x == accountPubkey)
  else none

/-- The pair (postAmount, preAmount) the balance-diff scan compares for one
post entry (app.js:344-365): defined when the entry is on the configured mint,
both amounts convert, and the entry is receiver-related; none when the loop
continues past the entry, including when a BigInt conversion throws (the throw
is caught per-entry at app.js:387 and the loop continues). -/
def entryAmounts (accountKeys : List String) (pre : List TokenBalance) (receiver : String)
    (receiverATA : Option String) (p : TokenBalance) : Option (Nat × Nat) :=
  if p.mint ≠ USDC_MINT then none
  else
    match parseAmount p.amount with
    | .error _ => none
    | .ok postAmount =>
      match selectPre accountKeys pre receiver receiverATA p with
      | none => none
      | some preEntry =>
        match parseAmount (match preEntry with | some e => e.amount | none => .num 0) with
        | .error _ => none
        | .ok preAmount => some (postAmount, preAmount)

/-- Whether one post entry triggers the qualification branch of the balance-diff
scan: its balance difference meets the atomic threshold (diff >= amountAtomic,
app.js:368). -/
def entryQualifies (accountKeys : List String) (pre : List TokenBalance) (receiver : String)
    (receiverATA : Option String) (amountAtomic : Nat) (p : TokenBalance) : Bool :=
  match entryAmounts accountKeys pre receiver receiverATA p with
  | some (postAmount, preAmount) =>
    decide ((amountAtomic : Int) ≤ (postAmount : Int) - (preAmount : Int))
  | none => false

/-- The balance-diff loop (app.js:344-390): at the first qualifying post entry
the facilitator is consulted (FACILITATOR_URL always has a non-empty default,
app.js:224, so the conditional at app.js:370 is always taken); a falsy valid
field returns false, any other outcome (valid true, or a thrown facilitator
error caught at app.js:378) falls through to return true. none: no entry
qualified and control reaches the instruction fallbacks. -/
def scanBalances (accountKeys : List String) (pre : List TokenBalance) (receiver : String)
    (receiverATA : Option String) (amountAtomic : Nat) (facResp : FacResult) :
    List TokenBalance → Option Verdict
  | [] => none
  | p :: rest =>
    if entryQualifies accountKeys pre receiver receiverATA amountAtomic p then
      match facResp with
      | .invalid => some .rejected
      | .valid => some .confirmed
      | .unreachable => some .confirmed
    else scanBalances accountKeys pre receiver receiverATA amountAtomic facResp rest

/-- Source/destination condition of Fallback A (app.js:404-405): either the
source equals the sender ATA (when one was computed) or the claimed sender
address directly, and the destination equals the receiver ATA or the receiver
address. JS strict equality on possibly-null values is Option equality. -/
def addrMatchA (senderAddress : String) (senderATA : Option String) (receiver : String)
    (receiverATA : Option String) (info : ParsedInfo) : Bool :=
  let src := info.source <|> info.fromField <|> info.account
  let dest := info.destination <|> info.toField <|> info.account
  decide ((senderATA ≠ none ∧ src = senderATA ∧ (dest = receiverATA ∨ dest = some receiver)) ∨
    (src = some senderAddress ∧ (dest = receiverATA ∨ dest = some receiver)))

/-- One top-level instruction of Fallback A (app.js:395-410): for a parsed
transfer / transferChecked instruction, convert the amount (a malformed amount
throws, and nothing catches it before the outer handler at app.js:441), then
require the configured mint, amount at or above the threshold, and the
source/destination match. -/
def instrMatchA (senderAddress : String) (senderATA : Option String) (receiver : String)
    (receiverATA : Option String) (amountAtomic : Nat) : Instruction → Except Unit Bool
  | none => .ok false
  | some inst =>
    if inst.type = "transfer" ∨ inst.type = "transferChecked" then
      match parseAmount inst.info.amount with
      | .error e => .error e
      | .ok amt =>
        .ok (decide (inst.info.mint = some USDC_MINT) && decide (amountAtomic ≤ amt) &&
          addrMatchA senderAddress senderATA receiver receiverATA inst.info)
    else .ok false

/-- Destination condition of Fallback B (app.js:422-424): destination, else
account, else to; it must equal the receiver ATA or the receiver address.
Fallback B performs no source check. -/
def destMatchB (receiver : String) (receiverATA : Option String) (info : ParsedInfo) : Bool :=
  let dest := info.destination <|> info.account <|> info.toField
  decide (dest = receiverATA ∨ dest = some receiver)

/-- One inner instruction of Fallback B (app.js:418-428): the amount of every
parsed instruction is converted before the type test (app.js:421), then the
condition requires transfer / transferChecked type, the configured mint, amount
at or above the threshold, and the destination match only. -/
def instrMatchB (receiver : String) (receiverATA : Option String) (amountAtomic : Nat) :
    Instruction → Except Unit Bool
  | none => .ok false
  | some inst =>
    match parseAmount inst.info.amount with
    | .error e => .error e
    | .ok amt =>
      .ok (decide (inst.type = "transfer" ∨ inst.type = "transferChecked") &&
        decide (inst.info.mint = some USDC_MINT) && decide (amountAtomic ≤ amt) &&
        destMatchB receiver receiverATA inst.info)

/-- Fallback A loop over top-level instructions; a thrown conversion error
propagates (to the outer handler of verifyUSDCTransfer). -/
def scanInstsA (senderAddress : String) (senderATA : Option String) (receiver : String)
    (receiverATA : Option String) (amountAtomic : Nat) : List Instruction → Except Unit Bool
  | [] => .ok false
  | i :: rest =>
    match instrMatchA senderAddress senderATA receiver receiverATA amountAtomic i with
    | .error e => .error e
    | .ok true => .ok true
    | .ok false => scanInstsA senderAddress senderATA receiver receiverATA amountAtomic rest

/-- Fallback B inner loop over one inner-instruction group. -/
def scanInstsBRow (receiver : String) (receiverATA : Option String) (amountAtomic : Nat) :
    List Instruction → Except Unit Bool
  | [] => .ok false
  | i :: rest =>
    match instrMatchB receiver receiverATA amountAtomic i with
    | .error e => .error e
    | .ok true => .ok true
    | .ok false => scanInstsBRow receiver receiverATA amountAtomic rest

/-- Fallback B loop over the inner-instruction groups (app.js:417-430); a
thrown error is caught by the surrounding handler at app.js:431 and the
function falls through to return false. -/
def scanInstsB (receiver : String) (receiverATA : Option String) (amountAtomic : Nat) :
    List (List Instruction) → Except Unit Bool
  | [] => .ok false
  | slot :: rest =>
    match scanInstsBRow receiver receiverATA amountAtomic slot with
    | .error e => .error e
    | .ok true => .ok true
    | .ok false => scanInstsB receiver receiverATA amountAtomic rest

/-- Steps 3 onward of verifyUSDCTransfer, once a parsed transaction is in hand
(app.js:301-438): meta error check, ATA computations (pure, through the ata
parameter), balance-diff scan with facilitator cross-check, Fallback A (whose
thrown errors reach the outer handler at app.js:441-445, which returns false),
Fallback B (whose thrown errors are caught at app.js:431 and fall through), and
the final return false at app.js:438. -/
def verifyFromTx (ata : String → String → Option String) (amountAtomic : Nat) (env : Env)
    (senderAddress : String) (tx : ParsedTx) (calls : List Call) : Verdict × List Call :=
  if tx.metaErr then (.rejected, calls)
  else
    let receiver := X402_RECEIVER_ADDRESS
    let receiverATA := ata USDC_MINT receiver
    let senderATA := ata USDC_MINT senderAddress
    match scanBalances tx.accountKeys tx.preTokenBalances receiver receiverATA amountAtomic
        env.facResp tx.postTokenBalances with
    | some v => (v, calls ++ [.facilitatorVerify])
    | none =>
      match scanInstsA senderAddress senderATA receiver receiverATA amountAtomic
          tx.instructions with
      | .ok true => (.confirmed, calls)
      | .error _ => (.rejected, calls)
      | .ok false =>
        match scanInstsB receiver receiverATA amountAtomic tx.innerInstructions with
        | .ok true => (.confirmed, calls)
        | .error _ => (.rejected, calls)
        | .ok false => (.rejected, calls)

/-- Shallow embedding of verifyUSDCTransfer (app.js:227-446). Step 1 triages
the signature status (app.js:235-266); step 2 fetches the parsed transaction
with the raw getTransaction fallback (app.js:268-300); the remainder is
verifyFromTx. amountAtomic is the configured atomic threshold (app.js:306-307);
ata models getAssociatedTokenAddressSync composed with PublicKey construction
and toString, returning none when construction throws (app.js:311-324). -/
def verifyUSDCTransfer (ata : String → String → Option String) (amountAtomic : Nat)
    (env : Env) (senderAddress : String) : Verdict × List Call :=
  match env.sigResp with
  | .rateLimited => (.inconclusive, [.getSignatureStatuses])
  | .errored => (.inconclusive, [.getSignatureStatuses])
  | .ok none => (.inconclusive, [.getSignatureStatuses])
  | .ok (some sigStatus) =>
    if sigStatus.err then (.rejected, [.getSignatureStatuses])
    else if sigStatus.confirmationStatus ≠ some .confirmed ∧
        sigStatus.confirmationStatus ≠ some .finalized then
      (.inconclusive, [.getSignatureStatuses])
    else
      match env.txResp with
      | .rateLimited => (.inconclusive, [.getSignatureStatuses, .getParsedTransaction])
      | .errored => (.inconclusive, [.getSignatureStatuses, .getParsedTransaction])
      | .ok (some tx) =>
        verifyFromTx ata amountAtomic env senderAddress tx
          [.getSignatureStatuses, .getParsedTransaction]
      | .ok none =>
        match env.rawResp with
        | .rateLimited =>
          (.inconclusive, [.getSignatureStatuses, .getParsedTransaction, .rawGetTransaction])
        | .result tx =>
          verifyFromTx ata amountAtomic env senderAddress tx
            [.getSignatureStatuses, .getParsedTransaction, .rawGetTransaction]
        | .errored =>
          (.inconclusive, [.getSignatureStatuses, .getParsedTransaction, .rawGetTransaction])
        | .dataError =>
          (.inconclusive, [.getSignatureStatuses, .getParsedTransaction, .rawGetTransaction])
        | .noResult =>
          (.inconclusive, [.getSignatureStatuses, .getParsedTransaction, .rawGetTransaction])

/-- Byte-level model of PublicKey.createProgramAddress as used by
findProgramAddressSync: hash the seed bytes, the program id and the
program-derived-address domain marker; the construction throws (none) when the
digest lies on the curve. sha256 and the curve-membership test are pure library
functions, passed as explicit parameters. -/
def createProgramAddress (hash : List (List Nat) → List Nat) (isOnCurve : List Nat → Bool)
    (seeds : List (List Nat)) (programId pdaMarker : List Nat) : Option (List Nat) :=
  let digest := hash (seeds ++ [programId, pdaMarker])
  if isOnCurve digest then none else some digest

/-- Bump search of PublicKey.findProgramAddressSync: try bump seeds from the
given value down to 0, returning the first off-curve derived address. -/
def findProgramAddressAux (hash : List (List Nat) → List Nat) (isOnCurve : List Nat → Bool)
    (seeds : List (List Nat)) (programId pdaMarker : List Nat) : Nat → Option (List Nat × Nat)
  | 0 =>
    match createProgramAddress hash isOnCurve (seeds ++ [[0]]) programId pdaMarker with
    | some a => some (a, 0)
    | none => none
  | bump + 1 =>
    match createProgramAddress hash isOnCurve (seeds ++ [[bump + 1]]) programId pdaMarker with
    | some a => some (a, bump + 1)
    | none => findProgramAddressAux hash isOnCurve seeds programId pdaMarker bump

/-- PublicKey.findProgramAddressSync: bump search starting at 255. -/
def findProgramAddressSync (hash : List (List Nat) → List Nat) (isOnCurve : List Nat → Bool)
    (seeds : List (List Nat)) (programId pdaMarker : List Nat) : Option (List Nat × Nat) :=
  findProgramAddressAux hash isOnCurve seeds programId pdaMarker 255

/-- getAssociatedTokenAddressSync (app.js:190-201): seeds are the owner bytes,
the token-program-id bytes and the mint bytes; the address component of
findProgramAddressSync under the associated-token-program id is returned. The
library constants and primitives are parameters, since their values live in
external packages. -/
def getAssociatedTokenAddressSync (hash : List (List Nat) → List Nat)
    (isOnCurve : List Nat → Bool) (tokenProgramId associatedTokenProgramId pdaMarker : List Nat)
    (mint owner : List Nat) : Option (List Nat) :=
  let seeds := [owner, tokenProgramId, mint]
  (findProgramAddressSync hash isOnCurve seeds associatedTokenProgramId pdaMarker).map Prod.fst

/-- State of the ambient network connection during a derivation call; the spec
test mocks the network to always throw. -/
inductive NetworkBehavior
  | responsive
  | alwaysThrow
deriving DecidableEq, Repr

/-- getAssociatedTokenAddressSync executed in the presence of the ambient
connection object: the body of the source function performs no RPC call
(app.js:189), so the network argument is never consulted. -/
def getAssociatedTokenAddressSyncWithNetwork (net : NetworkBehavior)
    (hash : List (List Nat) → List Nat) (isOnCurve : List Nat → Bool)
    (tokenProgramId associatedTokenProgramId pdaMarker : List Nat)
    (mint owner : List Nat) : Option (List Nat) :=
  getAssociatedTokenAddressSync hash isOnCurve tokenProgramId associatedTokenProgramId
    pdaMarker mint owner

/-! Helper lemmas shared by several results. -/

/-- The balance-diff loop early-returns exactly when some post entry qualifies,
and the verdict then depends only on the facilitator response. -/
theorem scanBalances_eq_if (accountKeys : List String) (pre : List TokenBalance)
    (receiver : String) (receiverATA : Option String) (amountAtomic : Nat)
    (facResp : FacResult) (l : List TokenBalance) :
    scanBalances accountKeys pre receiver receiverATA amountAtomic facResp l =
      if l.any (entryQualifies accountKeys pre receiver receiverATA amountAtomic) then
        (if facResp = .invalid then some .rejected else some .confirmed)
      else none := by
  induction l with
  | nil => rfl
  | cons p rest ih =>
    by_cases h : entryQualifies accountKeys pre receiver receiverATA amountAtomic p = true
    · simp only [scanBalances, h, if_true, List.any_cons, Bool.true_or]
      cases facResp <;> rfl
    · simp only [scanBalances, List.any_cons, Bool.not_eq_true] at *
      simp [h, ih]

/-- Fallback A qualification decomposed: a top-level instruction matches
exactly when it is a parsed transfer / transferChecked, its amount converts,
its mint is the configured one, the amount meets the threshold, and the
source/destination condition holds. -/
theorem instrMatchA_ok_true_iff (senderAddress : String) (senderATA : Option String)
    (receiver : String) (receiverATA : Option String) (amountAtomic : Nat)
    (inst : Instruction) :
    instrMatchA senderAddress senderATA receiver receiverATA amountAtomic inst = .ok true ↔
      ∃ pi amt, inst = some pi ∧ (pi.type = "transfer" ∨ pi.type = "transferChecked") ∧
        parseAmount pi.info.amount = .ok amt ∧ pi.info.mint = some USDC_MINT ∧
        amountAtomic ≤ amt ∧
        addrMatchA senderAddress senderATA receiver receiverATA pi.info = true := by
  match inst with
  | none => simp [instrMatchA]
  | some pi =>
    simp only [instrMatchA]
    by_cases ht : pi.type = "transfer" ∨ pi.type = "transferChecked"
    · simp only [ht, if_true]
      cases hp : parseAmount pi.info.amount with
      | error e =>
        constructor
        · intro h; exact absurd h (by simp)
        · rintro ⟨pi1, amt, h1, -, h3, -⟩
          cases h1
          rw [hp] at h3
          exact absurd h3 (by simp)
      | ok amt =>
        simp only [Except.ok.injEq, Bool.and_eq_true, decide_eq_true_eq,
          Option.some.injEq]
        constructor
        · rintro ⟨⟨hm, hle⟩, ha⟩
          exact ⟨pi, amt, rfl, ht, hp, hm, hle, ha⟩
        · rintro ⟨pi1, amt1, h1, -, h3, h4, h5, h6⟩
          cases h1
          rw [hp] at h3
          cases h3
          exact ⟨⟨h4, h5⟩, h6⟩
    · simp only [ht, if_false]
      constructor
      · intro h; exact absurd h (by simp)
      · rintro ⟨pi1, amt, h1, h2, -⟩
        cases h1
        exact absurd h2 ht

/-- Fallback B qualification decomposed: an inner instruction matches exactly
when its amount converts, it is a transfer / transferChecked on the configured
mint, the amount meets the threshold, and the destination condition holds;
no condition mentions the source. -/
theorem instrMatchB_ok_true_iff (receiver : String) (receiverATA : Option String)
    (amountAtomic : Nat) (inst : Instruction) :
    instrMatchB receiver receiverATA amountAtomic inst = .ok true ↔
      ∃ pi amt, inst = some pi ∧ (pi.type = "transfer" ∨ pi.type = "transferChecked") ∧
        parseAmount pi.info.amount = .ok amt ∧ pi.info.mint = some USDC_MINT ∧
        amountAtomic ≤ amt ∧ destMatchB receiver receiverATA pi.info = true := by
  match inst with
  | none => simp [instrMatchB]
  | some pi =>
    simp only [instrMatchB]
    cases hp : parseAmount pi.info.amount with
    | error e =>
      constructor
      · intro h; exact absurd h (by simp)
      · rintro ⟨pi1, amt, h1, -, h3, -⟩
        cases h1
        rw [hp] at h3
        exact absurd h3 (by simp)
    | ok amt =>
      simp only [Except.ok.injEq, Bool.and_eq_true, decide_eq_true_eq, Option.some.injEq]
      constructor
      · rintro ⟨⟨⟨ht, hm⟩, hle⟩, hd⟩
        exact ⟨pi, amt, rfl, ht, hp, hm, hle, hd⟩
      · rintro ⟨pi1, amt1, h1, h2, h3, h4, h5, h6⟩
        cases h1
        rw [hp] at h3
        cases h3
        exact ⟨⟨⟨h2, h4⟩, h5⟩, h6⟩

/-! Claims. -/

/-- C1: verify first triages the signature status: an unavailable status gives
Inconclusive; a status with the error flag gives Rejected without the parsed
transaction ever being fetched; an error-free status below confirmed gives
Inconclusive; a rate-limit-shaped failure of the status call gives
Inconclusive. -/
theorem C1_status_triage (ata : String → String → Option String) (amountAtomic : Nat)
    (env : Env) (senderAddress : String) :
    (env.sigResp = .ok none →
      (verifyUSDCTransfer ata amountAtomic env senderAddress).1 = .inconclusive) ∧
    (∀ st, env.sigResp = .ok (some st) → st.err = true →
      verifyUSDCTransfer ata amountAtomic env senderAddress =
        (.rejected, [.getSignatureStatuses]) ∧
      Call.getParsedTransaction ∉ (verifyUSDCTransfer ata amountAtomic env senderAddress).2) ∧
    (∀ st, env.sigResp = .ok (some st) → st.err = false →
      st.confirmationStatus ≠ some .confirmed → st.confirmationStatus ≠ some .finalized →
      (verifyUSDCTransfer ata amountAtomic env senderAddress).1 = .inconclusive) ∧
    (env.sigResp = .rateLimited →
      (verifyUSDCTransfer ata amountAtomic env senderAddress).1 = .inconclusive) := by
  obtain ⟨sr, tr, rr, fr⟩ := env
  refine ⟨?_, ?_, ?_, ?_⟩
  · intro h
    simp only at h
    subst h
    rfl
  · intro st h herr
    simp only at h
    subst h
    obtain ⟨cs, e⟩ := st
    simp only at herr
    subst herr
    exact ⟨rfl, by simp [verifyUSDCTransfer]⟩
  · intro st h herr hc hf
    simp only at h
    subst h
    obtain ⟨cs, e⟩ := st
    simp only at herr
    subst herr
    simp [verifyUSDCTransfer, hc, hf]
  · intro h
    simp only at h
    subst h
    rfl

/-- C1 witness: the four triage branches at concrete inputs. -/
theorem C1_status_triage_witness :
    (verifyUSDCTransfer (fun _ _ => none) 1000
      { sigResp := .ok none, txResp := .ok none, rawResp := .noResult,
        facResp := .unreachable } "S").1 = .inconclusive ∧
    verifyUSDCTransfer (fun _ _ => none) 1000
      { sigResp := .ok (some { confirmationStatus := some .finalized, err := true }),
        txResp := .ok none, rawResp := .noResult, facResp := .unreachable } "S" =
      (.rejected, [.getSignatureStatuses]) ∧
    (verifyUSDCTransfer (fun _ _ => none) 1000
      { sigResp := .ok (some { confirmationStatus := some .processed, err := false }),
        txResp := .ok none, rawResp := .noResult, facResp := .unreachable } "S").1 =
      .inconclusive ∧
    (verifyUSDCTransfer (fun _ _ => none) 1000
      { sigResp := .rateLimited, txResp := .ok none, rawResp := .noResult,
        facResp := .unreachable } "S").1 = .inconclusive := by
  refine ⟨?_, ?_, ?_, ?_⟩
  · exact (C1_status_triage (fun _ _ => none) 1000 _ "S").1 rfl
  · exact ((C1_status_triage (fun _ _ => none) 1000 _ "S").2.1 _ rfl rfl).1
  · exact (C1_status_triage (fun _ _ => none) 1000 _ "S").2.2.1 _ rfl rfl
      (by decide) (by decide)
  · exact (C1_status_triage (fun _ _ => none) 1000 _ "S").2.2.2 rfl

/-- C2: in all three matching strategies a transfer qualifies exactly when the
compared amount (the balance difference, or the instruction amount) is at or
above the configured atomic threshold, conjoined with conditions that do not
involve the threshold at all (the decompositions entryAmounts, addrMatchA and
destMatchB take no threshold argument): overpayment of any size is accepted,
with no upper bound and no exact-match requirement. -/
theorem C2_threshold_only :
    (∀ accountKeys pre receiver receiverATA amountAtomic p,
      entryQualifies accountKeys pre receiver receiverATA amountAtomic p = true ↔
        ∃ postAmount preAmount,
          entryAmounts accountKeys pre receiver receiverATA p = some (postAmount, preAmount) ∧
          (amountAtomic : Int) ≤ (postAmount : Int) - (preAmount : Int)) ∧
    (∀ senderAddress senderATA receiver receiverATA amountAtomic inst,
      instrMatchA senderAddress senderATA receiver receiverATA amountAtomic inst = .ok true ↔
        ∃ pi amt, inst = some pi ∧ (pi.type = "transfer" ∨ pi.type = "transferChecked") ∧
          parseAmount pi.info.amount = .ok amt ∧ pi.info.mint = some USDC_MINT ∧
          amountAtomic ≤ amt ∧
          addrMatchA senderAddress senderATA receiver receiverATA pi.info = true) ∧
    (∀ receiver receiverATA amountAtomic inst,
      instrMatchB receiver receiverATA amountAtomic inst = .ok true ↔
        ∃ pi amt, inst = some pi ∧ (pi.type = "transfer" ∨ pi.type = "transferChecked") ∧
          parseAmount pi.info.amount = .ok amt ∧ pi.info.mint = some USDC_MINT ∧
          amountAtomic ≤ amt ∧ destMatchB receiver receiverATA pi.info = true) := by
  refine ⟨?_, ?_, ?_⟩
  · intro accountKeys pre receiver receiverATA amountAtomic p
    unfold entryQualifies
    cases h : entryAmounts accountKeys pre receiver receiverATA p with
    | none => simp
    | some q =>
      obtain ⟨postAmount, preAmount⟩ := q
      simp only [decide_eq_true_eq, Option.some.injEq, Prod.mk.injEq]
      constructor
      · intro hle
        exact ⟨postAmount, preAmount, ⟨rfl, rfl⟩, hle⟩
      · rintro ⟨po, pr, ⟨rfl, rfl⟩, hle⟩
        exact hle
  · intro senderAddress senderATA receiver receiverATA amountAtomic inst
    exact instrMatchA_ok_true_iff senderAddress senderATA receiver receiverATA amountAtomic inst
  · intro receiver receiverATA amountAtomic inst
    exact instrMatchB_ok_true_iff receiver receiverATA amountAtomic inst

/-- C4: the associated-token-address derivation is a pure, deterministic
function of its inputs: the ambient network state (including a network that
always throws) does not affect the result, and two calls with identical inputs
yield identical outputs. -/
theorem C4_derivation_pure (hash : List (List Nat) → List Nat) (isOnCurve : List Nat → Bool)
    (tokenProgramId associatedTokenProgramId pdaMarker mint owner : List Nat)
    (net1 net2 : NetworkBehavior) :
    getAssociatedTokenAddressSyncWithNetwork net1 hash isOnCurve tokenProgramId
        associatedTokenProgramId pdaMarker mint owner =
      getAssociatedTokenAddressSyncWithNetwork net2 hash isOnCurve tokenProgramId
        associatedTokenProgramId pdaMarker mint owner ∧
    getAssociatedTokenAddressSync hash isOnCurve tokenProgramId associatedTokenProgramId
        pdaMarker mint owner =
      getAssociatedTokenAddressSync hash isOnCurve tokenProgramId associatedTokenProgramId
        pdaMarker mint owner :=
  ⟨rfl, rfl⟩

/-- C10: in both instruction fallbacks a parsed instruction qualifies only if
its info carries a mint field equal to the configured USDC mint; in particular
a transfer whose parsed info has no mint field never qualifies, whatever its
amount, source or destination. -/
theorem C10_mint_required (senderAddress : String) (senderATA : Option String)
    (receiver : String) (receiverATA : Option String) (amountAtomic : Nat)
    (pi : ParsedInst) :
    (instrMatchA senderAddress senderATA receiver receiverATA amountAtomic (some pi) =
        .ok true → pi.info.mint = some USDC_MINT) ∧
    (instrMatchB receiver receiverATA amountAtomic (some pi) = .ok true →
      pi.info.mint = some USDC_MINT) := by
  constructor
  · intro h
    obtain ⟨pi1, amt, h1, -, -, h4, -⟩ :=
      (instrMatchA_ok_true_iff senderAddress senderATA receiver receiverATA
        amountAtomic (some pi)).mp h
    cases h1
    exact h4
  · intro h
    obtain ⟨pi1, amt, h1, -, -, h4, -⟩ :=
      (instrMatchB_ok_true_iff receiver receiverATA amountAtomic (some pi)).mp h
    cases h1
    exact h4

/-- C10 witness: a concrete qualifying instruction in each fallback, whose mint
field the theorem then forces to be the configured mint. -/
theorem C10_mint_required_witness :
    (ParsedInst.mk "transferChecked"
      { mint := some USDC_MINT, amount := .num 5, source := some "S",
        destination := some "R" }).info.mint = some USDC_MINT ∧
    (ParsedInst.mk "transferChecked"
      { mint := some USDC_MINT, amount := .num 5,
        destination := some "R" }).info.mint = some USDC_MINT := by
  constructor
  · exact (C10_mint_required "S" none "R" none 5
      (ParsedInst.mk "transferChecked"
        { mint := some USDC_MINT, amount := .num 5, source := some "S",
          destination := some "R" })).1 rfl
  · exact (C10_mint_required "S" none "R" none 5
      (ParsedInst.mk "transferChecked"
        { mint := some USDC_MINT, amount := .num 5,
          destination := some "R" })).2 rfl

/-- When the signature status is error-free and at least confirmed and the
parsed transaction is fetched directly, verification reduces to the
post-transaction stage with the two chain calls on the trace. -/
theorem verifyUSDCTransfer_confirmed_tx (ata : String → String → Option String)
    (amountAtomic : Nat) (env : Env) (senderAddress : String) (st : SigStatus) (tx : ParsedTx)
    (hsig : env.sigResp = .ok (some st)) (herr : st.err = false)
    (hcs : st.confirmationStatus = some .confirmed ∨ st.confirmationStatus = some .finalized)
    (htx : env.txResp = .ok (some tx)) :
    verifyUSDCTransfer ata amountAtomic env senderAddress =
      verifyFromTx ata amountAtomic env senderAddress tx
        [.getSignatureStatuses, .getParsedTransaction] := by
  obtain ⟨sr, tr, rr, fr⟩ := env
  obtain ⟨cs, e⟩ := st
  simp only at hsig htx herr hcs
  subst hsig htx herr
  rcases hcs with h | h <;> subst h <;> rfl

/-- When some post entry qualifies in the balance-diff scan, the run ends there:
the facilitator is consulted and its explicit denial (and nothing else) turns
the verdict into rejected. -/
theorem verifyFromTx_qualifying (ata : String → String → Option String) (amountAtomic : Nat)
    (env : Env) (senderAddress : String) (tx : ParsedTx) (calls : List Call)
    (hmeta : tx.metaErr = false)
    (hqual : ∃ e ∈ tx.postTokenBalances,
      entryQualifies tx.accountKeys tx.preTokenBalances X402_RECEIVER_ADDRESS
        (ata USDC_MINT X402_RECEIVER_ADDRESS) amountAtomic e = true) :
    verifyFromTx ata amountAtomic env senderAddress tx calls =
      ((if env.facResp = .invalid then Verdict.rejected else Verdict.confirmed),
        calls ++ [Call.facilitatorVerify]) := by
  obtain ⟨e, he, hq⟩ := hqual
  have hany : tx.postTokenBalances.any
      (entryQualifies tx.accountKeys tx.preTokenBalances X402_RECEIVER_ADDRESS
        (ata USDC_MINT X402_RECEIVER_ADDRESS) amountAtomic) = true :=
    List.any_eq_true.mpr ⟨e, he, hq⟩
  simp only [verifyFromTx, hmeta, Bool.false_eq_true, if_false, scanBalances_eq_if, hany,
    if_true]
  by_cases hf : env.facResp = FacResult.invalid <;> simp [hf]

/-- C3: a confirmed, error-free transaction whose post balances hold an entry
for the receiver ATA on the configured mint with amount 1000, with no matching
pre entry (the account was created within the transaction, so the previous
balance defaults to zero), at threshold 1000 and absent an explicit facilitator
denial, is Confirmed through the primary balance-diff match. -/
theorem C3_scenario (ata : String → String → Option String) (env : Env)
    (senderAddress : String) (st : SigStatus) (tx : ParsedTx) (p : TokenBalance)
    (hsig : env.sigResp = .ok (some st)) (herr : st.err = false)
    (hcs : st.confirmationStatus = some .confirmed ∨ st.confirmationStatus = some .finalized)
    (htx : env.txResp = .ok (some tx)) (hmeta : tx.metaErr = false)
    (hfac : env.facResp ≠ .invalid)
    (hmem : p ∈ tx.postTokenBalances) (hmint : p.mint = USDC_MINT)
    (hamt : p.amount = .num 1000)
    (hacc : resolveAccountPubkey tx.accountKeys p = ata USDC_MINT X402_RECEIVER_ADDRESS)
    (hata : ata USDC_MINT X402_RECEIVER_ADDRESS ≠ none)
    (hnopre : ∀ x ∈ tx.preTokenBalances, x.owner ≠ p.owner ∧
      resolveAccountPubkey tx.accountKeys x ≠ resolveAccountPubkey tx.accountKeys p) :
    (verifyUSDCTransfer ata 1000 env senderAddress).1 = .confirmed := by
  have hsel : selectPre tx.accountKeys tx.preTokenBalances X402_RECEIVER_ADDRESS
      (ata USDC_MINT X402_RECEIVER_ADDRESS) p = some none := by
    simp only [selectPre]
    by_cases ho : p.owner = some X402_RECEIVER_ADDRESS
    · rw [if_pos ho]
      have hnone : tx.preTokenBalances.find? (fun x => x.owner == p.owner) = none :=
        List.find?_eq_none.mpr fun x hx => by
          simp only [beq_iff_eq]
          exact (hnopre x hx).1
      rw [hnone]
    · rw [if_neg ho, if_pos ⟨hata, Or.inl hacc⟩]
      have hnone : tx.preTokenBalances.find? (fun x =>
          resolveAccountPubkey tx.accountKeys x == resolveAccountPubkey tx.accountKeys p) =
          none :=
        List.find?_eq_none.mpr fun x hx => by
          simp only [beq_iff_eq]
          exact (hnopre x hx).2
      rw [hnone]
  have hq : entryQualifies tx.accountKeys tx.preTokenBalances X402_RECEIVER_ADDRESS
      (ata USDC_MINT X402_RECEIVER_ADDRESS) 1000 p = true := by
    simp only [entryQualifies, entryAmounts, hmint, hamt, hsel, parseAmount]
    decide
  rw [verifyUSDCTransfer_confirmed_tx ata 1000 env senderAddress st tx hsig herr hcs htx,
    verifyFromTx_qualifying ata 1000 env senderAddress tx _ hmeta ⟨p, hmem, hq⟩]
  simp [hfac]

/-- Transaction of the C3 witness: one post entry for the receiver ATA, no pre
entries. -/
def txC3 : ParsedTx :=
  { metaErr := false, preTokenBalances := [],
    postTokenBalances :=
      [{ pubkey := some "ReceiverAtaThree", mint := USDC_MINT, amount := .num 1000 }],
    accountKeys := [], instructions := [], innerInstructions := [] }

/-- Environment of the C3 witness. -/
def envC3 : Env :=
  { sigResp := .ok (some { confirmationStatus := some .confirmed, err := false }),
    txResp := .ok (some txC3), rawResp := .noResult, facResp := .unreachable }

/-- C3 witness: the scenario at a concrete transaction and environment. -/
theorem C3_scenario_witness :
    (verifyUSDCTransfer (fun _ _ => some "ReceiverAtaThree") 1000 envC3 "SenderThree").1 =
      .confirmed :=
  C3_scenario (fun _ _ => some "ReceiverAtaThree") envC3 "SenderThree"
    { confirmationStatus := some .confirmed, err := false } txC3
    { pubkey := some "ReceiverAtaThree", mint := USDC_MINT, amount := .num 1000 }
    rfl rfl (Or.inl rfl) rfl rfl (by decide) (by simp [txC3]) rfl rfl rfl (by decide)
    (by intro x hx; simp [txC3] at hx)

/-- C8: with qualifying on-chain balance-diff evidence, a facilitator failure
(thrown error, timeout, unreachable endpoint) never causes rejection: the
verdict is rejected exactly when the facilitator explicitly denies, and an
unreachable facilitator still yields Confirmed. -/
theorem C8_facilitator_fail_open (ata : String → String → Option String)
    (amountAtomic : Nat) (env : Env) (senderAddress : String) (st : SigStatus)
    (tx : ParsedTx)
    (hsig : env.sigResp = .ok (some st)) (herr : st.err = false)
    (hcs : st.confirmationStatus = some .confirmed ∨ st.confirmationStatus = some .finalized)
    (htx : env.txResp = .ok (some tx)) (hmeta : tx.metaErr = false)
    (hqual : ∃ e ∈ tx.postTokenBalances,
      entryQualifies tx.accountKeys tx.preTokenBalances X402_RECEIVER_ADDRESS
        (ata USDC_MINT X402_RECEIVER_ADDRESS) amountAtomic e = true) :
    ((verifyUSDCTransfer ata amountAtomic env senderAddress).1 = .rejected ↔
      env.facResp = .invalid) ∧
    (env.facResp = .unreachable →
      (verifyUSDCTransfer ata amountAtomic env senderAddress).1 = .confirmed) := by
  rw [verifyUSDCTransfer_confirmed_tx ata amountAtomic env senderAddress st tx hsig herr
    hcs htx, verifyFromTx_qualifying ata amountAtomic env senderAddress tx _ hmeta hqual]
  constructor
  · by_cases hf : env.facResp = FacResult.invalid <;> simp [hf]
  · intro hf
    rw [hf]
    simp

/-- Transaction of the C8 witness. -/
def txC8 : ParsedTx :=
  { metaErr := false, preTokenBalances := [],
    postTokenBalances :=
      [{ pubkey := some "ReceiverAtaEight", mint := USDC_MINT, amount := .num 2000 }],
    accountKeys := [], instructions := [], innerInstructions := [] }

/-- Environment of the C8 witness: qualifying evidence, facilitator unreachable. -/
def envC8 : Env :=
  { sigResp := .ok (some { confirmationStatus := some .finalized, err := false }),
    txResp := .ok (some txC8), rawResp := .noResult, facResp := .unreachable }

/-- C8 witness: an unreachable facilitator with qualifying evidence yields
Confirmed, and the rejected-iff-denial equivalence holds there. -/
theorem C8_facilitator_fail_open_witness :
    ((verifyUSDCTransfer (fun _ _ => some "ReceiverAtaEight") 1000 envC8 "SenderEight").1 =
        .rejected ↔ envC8.facResp = .invalid) ∧
    (verifyUSDCTransfer (fun _ _ => some "ReceiverAtaEight") 1000 envC8 "SenderEight").1 =
      .confirmed := by
  have h := C8_facilitator_fail_open (fun _ _ => some "ReceiverAtaEight") 1000 envC8
    "SenderEight" { confirmationStatus := some .finalized, err := false } txC8
    rfl rfl (Or.inr rfl) rfl rfl
    ⟨{ pubkey := some "ReceiverAtaEight", mint := USDC_MINT, amount := .num 2000 },
      by simp [txC8], by decide⟩
  exact ⟨h.1, h.2 rfl⟩

/-- Transaction of the C7 counterexample: qualifying receiver balance diff. -/
def txC7 : ParsedTx :=
  { metaErr := false, preTokenBalances := [],
    postTokenBalances :=
      [{ pubkey := some "ReceiverAtaSeven", mint := USDC_MINT, amount := .num 1500 }],
    accountKeys := [], instructions := [], innerInstructions := [] }

/-- Environment of the C7 counterexample: the facilitator explicitly denies. -/
def envC7 : Env :=
  { sigResp := .ok (some { confirmationStatus := some .confirmed, err := false }),
    txResp := .ok (some txC7), rawResp := .noResult, facResp := .invalid }

/-- C7 counterexample: a run in which the facilitator explicitly denies does
end in the rejected (NotPaid) verdict, but only after the signature-status and
parsed-transaction chain calls: the facilitator is the third call on the trace
and the number of Chain Client calls is 2, not 0, refuting that the facilitator
is consulted before any on-chain inspection. -/
theorem C7_counterexample :
    verifyUSDCTransfer (fun _ _ => some "ReceiverAtaSeven") 1000 envC7 "SenderSeven" =
      (.rejected, [.getSignatureStatuses, .getParsedTransaction, .facilitatorVerify]) ∧
    ((verifyUSDCTransfer (fun _ _ => some "ReceiverAtaSeven") 1000 envC7
        "SenderSeven").2.filter (fun c => decide (c ≠ Call.facilitatorVerify))).length = 2 :=
  ⟨rfl, rfl⟩

/-- C7 amended: the facilitator is consulted only after the on-chain
balance-diff scan finds a qualifying entry; its explicit denial then yields the
NotPaid verdict immediately (no instruction fallback runs), but the
signature-status and transaction fetches have already been made: the trace is
exactly those two chain calls followed by the facilitator call. -/
theorem C7_amended_denial_after_chain (ata : String → String → Option String)
    (amountAtomic : Nat) (env : Env) (senderAddress : String) (st : SigStatus)
    (tx : ParsedTx)
    (hsig : env.sigResp = .ok (some st)) (herr : st.err = false)
    (hcs : st.confirmationStatus = some .confirmed ∨ st.confirmationStatus = some .finalized)
    (htx : env.txResp = .ok (some tx)) (hmeta : tx.metaErr = false)
    (hqual : ∃ e ∈ tx.postTokenBalances,
      entryQualifies tx.accountKeys tx.preTokenBalances X402_RECEIVER_ADDRESS
        (ata USDC_MINT X402_RECEIVER_ADDRESS) amountAtomic e = true)
    (hfac : env.facResp = .invalid) :
    verifyUSDCTransfer ata amountAtomic env senderAddress =
      (.rejected, [.getSignatureStatuses, .getParsedTransaction, .facilitatorVerify]) := by
  rw [verifyUSDCTransfer_confirmed_tx ata amountAtomic env senderAddress st tx hsig herr
    hcs htx, verifyFromTx_qualifying ata amountAtomic env senderAddress tx _ hmeta hqual]
  rw [hfac]
  rfl

/-- Transaction of the C7 witness. -/
def txC7W : ParsedTx :=
  { metaErr := false, preTokenBalances := [],
    postTokenBalances :=
      [{ pubkey := some "AtaSevenW", mint := USDC_MINT, amount := .num 1000 }],
    accountKeys := [], instructions := [], innerInstructions := [] }

/-- Environment of the C7 witness. -/
def envC7W : Env :=
  { sigResp := .ok (some { confirmationStatus := some .confirmed, err := false }),
    txResp := .ok (some txC7W), rawResp := .noResult, facResp := .invalid }

/-- C7 witness: the amended statement at a concrete run. -/
theorem C7_amended_denial_after_chain_witness :
    verifyUSDCTransfer (fun _ _ => some "AtaSevenW") 1000 envC7W "SenderSevenW" =
      (.rejected, [.getSignatureStatuses, .getParsedTransaction, .facilitatorVerify]) :=
  C7_amended_denial_after_chain (fun _ _ => some "AtaSevenW") 1000 envC7W "SenderSevenW"
    { confirmationStatus := some .confirmed, err := false } txC7W
    rfl rfl (Or.inl rfl) rfl rfl
    ⟨{ pubkey := some "AtaSevenW", mint := USDC_MINT, amount := .num 1000 },
      by simp [txC7W], by decide⟩ rfl

/-- Pre entry of the C5 counterexample: a different account (and a different
mint) owned by the receiver. -/
def preC5 : TokenBalance :=
  { pubkey := some "AccountOne", owner := some X402_RECEIVER_ADDRESS,
    mint := "SomeOtherMintAddress", amount := .num 500 }

/-- Post entry of the C5 counterexample: the receiver-owned account credited in
this transaction, with no pre entry of its own. -/
def postC5 : TokenBalance :=
  { pubkey := some "AccountTwo", owner := some X402_RECEIVER_ADDRESS,
    mint := USDC_MINT, amount := .num 1000 }

/-- C5 counterexample: in the owner-field branch the balance-diff scan compares
the post entry of account AccountTwo against the pre entry of the distinct
account AccountOne (which is not even on the configured mint), computing the
difference 1000 - 500 instead of 1000 - 0; at threshold 1000 the entry
consequently fails to qualify, refuting that the difference always compares
balances of one and the same token account on the configured mint. -/
theorem C5_counterexample :
    selectPre [] [preC5] X402_RECEIVER_ADDRESS (some "ReceiverAtaFive") postC5 =
      some (some preC5) ∧
    resolveAccountPubkey [] preC5 = some "AccountOne" ∧
    resolveAccountPubkey [] postC5 = some "AccountTwo" ∧
    resolveAccountPubkey [] preC5 ≠ resolveAccountPubkey [] postC5 ∧
    preC5.mint ≠ USDC_MINT ∧
    entryAmounts [] [preC5] X402_RECEIVER_ADDRESS (some "ReceiverAtaFive") postC5 =
      some (1000, 500) ∧
    entryQualifies [] [preC5] X402_RECEIVER_ADDRESS (some "ReceiverAtaFive") 1000 postC5 =
      false ∧
    ([] : List TokenBalance).find?
      (fun x => resolveAccountPubkey [] x == resolveAccountPubkey [] postC5) = none := by
  refine ⟨rfl, rfl, rfl, by decide, by decide, rfl, by decide, rfl⟩

/-- C5 amended: the pre entry the scan pairs with a post entry depends on the
branch. When the post entry's owner field equals the receiver, the pre entry is
the first one with the same owner field, which may belong to a different
account or mint; only in the ATA / raw-address branches (owner field not equal
to the receiver) is the pre entry located by the same resolved account as the
post entry, defaulting to a zero balance when none matches. -/
theorem C5_amended_pre_entry_selection (accountKeys : List String)
    (pre : List TokenBalance) (receiver : String) (receiverATA : Option String)
    (p e : TokenBalance)
    (hfound : selectPre accountKeys pre receiver receiverATA p = some (some e)) :
    (p.owner = some receiver → e.owner = p.owner) ∧
    (p.owner ≠ some receiver →
      resolveAccountPubkey accountKeys e = resolveAccountPubkey accountKeys p) := by
  constructor
  · intro ho
    simp only [selectPre, if_pos ho] at hfound
    have hfind := List.find?_some (Option.some.injEq _ _ ▸ hfound :
      pre.find? (fun x => x.owner == p.owner) = some e)
    simpa [beq_iff_eq] using hfind
  · intro ho
    simp only [selectPre, if_neg ho] at hfound
    split at hfound
    · have hfind := List.find?_some (Option.some.injEq _ _ ▸ hfound :
        pre.find? (fun x =>
          resolveAccountPubkey accountKeys x == resolveAccountPubkey accountKeys p) = some e)
      simpa [beq_iff_eq] using hfind
    · split at hfound
      · have hfind := List.find?_some (Option.some.injEq _ _ ▸ hfound :
          pre.find? (fun x =>
            resolveAccountPubkey accountKeys x == resolveAccountPubkey accountKeys p) =
            some e)
        simpa [beq_iff_eq] using hfind
      · exact absurd hfound (by simp)

/-- Pre entry of the C5 witness. -/
def preC5W : TokenBalance :=
  { pubkey := some "AcctW", mint := USDC_MINT, amount := .num 7 }

/-- Post entry of the C5 witness. -/
def postC5W : TokenBalance :=
  { pubkey := some "AcctW", mint := USDC_MINT, amount := .num 9 }

/-- C5 witness: the amended selection at concrete entries, in the ATA branch. -/
theorem C5_amended_pre_entry_selection_witness :
    resolveAccountPubkey [] preC5W = resolveAccountPubkey [] postC5W :=
  (C5_amended_pre_entry_selection [] [preC5W] "RecvW" (some "AcctW") postC5W preC5W
    rfl).2 (by decide)

/-- Instruction of the C6 counterexample: a nested transfer on the configured
mint to the receiver ATA whose source matches neither the claimed sender's ATA
nor the claimed sender address. -/
def instC6 : Instruction :=
  some { type := "transferChecked",
         info := { mint := some USDC_MINT, amount := .num 1000,
                   source := some "MalloryAta", destination := some "ReceiverAtaSix" } }

/-- C6 counterexample: the nested scan (Fallback B) accepts an inner transfer
from an unrelated source account, while the direct scan (Fallback A) rejects
the very same instruction because its source matches neither the claimed
sender's ATA nor the claimed sender address: the two matching logics are not
identical, Fallback B performs no source check. -/
theorem C6_counterexample :
    instrMatchB X402_RECEIVER_ADDRESS (some "ReceiverAtaSix") 1000 instC6 = .ok true ∧
    instrMatchA "SenderSix" (some "SenderSixAta") X402_RECEIVER_ADDRESS
      (some "ReceiverAtaSix") 1000 instC6 = .ok false :=
  ⟨rfl, rfl⟩

/-- C6 amended: Fallback B applies the same type, mint and amount-threshold
checks as Fallback A and the same receiver-side destination check, but no
source check at all: its result is invariant under arbitrary changes of the
source and from fields, and an inner instruction qualifies exactly when it is
a transfer / transferChecked on the configured mint with amount at or above
the threshold whose destination matches the receiver ATA or address. -/
theorem C6_amended_no_source_check (receiver : String) (receiverATA : Option String)
    (amountAtomic : Nat) (t : String) (info : ParsedInfo) (s f : Option String) :
    instrMatchB receiver receiverATA amountAtomic
        (some { type := t, info := { info with source := s, fromField := f } }) =
      instrMatchB receiver receiverATA amountAtomic (some { type := t, info := info }) ∧
    (∀ amt, parseAmount info.amount = .ok amt →
      (instrMatchB receiver receiverATA amountAtomic (some { type := t, info := info }) =
          .ok true ↔
        ((t = "transfer" ∨ t = "transferChecked") ∧ info.mint = some USDC_MINT ∧
          amountAtomic ≤ amt ∧ destMatchB receiver receiverATA info = true))) := by
  constructor
  · rfl
  · intro amt hp
    rw [instrMatchB_ok_true_iff]
    constructor
    · rintro ⟨pi, amt1, h1, h2, h3, h4, h5, h6⟩
      cases h1
      have h3a : parseAmount info.amount = .ok amt1 := h3
      rw [hp] at h3a
      cases h3a
      exact ⟨h2, h4, h5, h6⟩
    · rintro ⟨h2, h4, h5, h6⟩
      exact ⟨⟨t, info⟩, amt, rfl, h2, hp, h4, h5, h6⟩

/-- Info object of the C6 witness. -/
def infoC6W : ParsedInfo :=
  { mint := some USDC_MINT, amount := .num 1200, destination := some "ReceiverAtaSixW" }

/-- C6 witness: the amended characterization at a concrete inner instruction,
including the source-invariance at concrete source values. -/
theorem C6_amended_no_source_check_witness :
    instrMatchB "RecvSixW" (some "ReceiverAtaSixW") 1000
        (some { type := "transferChecked",
                info := { infoC6W with source := some "AnybodyAta", fromField := some "X" } }) =
      instrMatchB "RecvSixW" (some "ReceiverAtaSixW") 1000
        (some { type := "transferChecked", info := infoC6W }) ∧
    instrMatchB "RecvSixW" (some "ReceiverAtaSixW") 1000
        (some { type := "transferChecked", info := infoC6W }) = .ok true := by
  have h := C6_amended_no_source_check "RecvSixW" (some "ReceiverAtaSixW") 1000
    "transferChecked" infoC6W (some "AnybodyAta") (some "X")
  refine ⟨h.1, ?_⟩
  exact (h.2 1200 rfl).mpr ⟨Or.inr rfl, rfl, by decide, rfl⟩

/-- Transaction of the C9 counterexample: a top-level parsed transfer whose
amount field is malformed, so the BigInt conversion throws. -/
def txC9 : ParsedTx :=
  { metaErr := false, preTokenBalances := [], postTokenBalances := [],
    accountKeys := [],
    instructions := [some { type := "transfer", info := { amount := .malformed } }],
    innerInstructions := [] }

/-- Environment of the C9 counterexample. -/
def envC9 : Env :=
  { sigResp := .ok (some { confirmationStatus := some .confirmed, err := false }),
    txResp := .ok (some txC9), rawResp := .noResult, facResp := .unreachable }

/-- C9 counterexample: a malformed provider response (an unparseable amount in
a top-level parsed instruction) makes the scan throw; the throw reaches the
outer handler, which returns false: verify yields Rejected, not Inconclusive,
refuting that no ambiguous failure path produces the Rejected verdict. -/
theorem C9_counterexample :
    verifyUSDCTransfer (fun _ _ => none) 1000 envC9 "SenderNine" =
      (.rejected, [.getSignatureStatuses, .getParsedTransaction]) :=
  rfl

/-- C9 amended: failures of the three data-fetching calls themselves that are
not rate-limit signals produce Inconclusive, never Rejected (the
signature-status call erroring, the parsed-transaction call erroring, and the
raw fallback erroring or returning no usable body); however an exception
thrown later, while scanning fetched data, reaches the outer handler and
produces Rejected. -/
theorem C9_amended_fetch_failures (ata : String → String → Option String)
    (amountAtomic : Nat) (env : Env) (senderAddress : String) :
    (env.sigResp = .errored →
      (verifyUSDCTransfer ata amountAtomic env senderAddress).1 = .inconclusive) ∧
    (∀ st, env.sigResp = .ok (some st) → st.err = false → env.txResp = .errored →
      (verifyUSDCTransfer ata amountAtomic env senderAddress).1 = .inconclusive) ∧
    (∀ st, env.sigResp = .ok (some st) → st.err = false → env.txResp = .ok none →
      (env.rawResp = .errored ∨ env.rawResp = .dataError ∨ env.rawResp = .noResult) →
      (verifyUSDCTransfer ata amountAtomic env senderAddress).1 = .inconclusive) := by
  obtain ⟨sr, tr, rr, fr⟩ := env
  refine ⟨?_, ?_, ?_⟩
  · intro h
    simp only at h
    subst h
    rfl
  · intro st h herr htr
    simp only at h htr
    subst h htr
    obtain ⟨cs, e⟩ := st
    simp only at herr
    subst herr
    rcases cs with _ | c
    · rfl
    · cases c <;> rfl
  · intro st h herr htr hraw
    simp only at h htr
    subst h htr
    obtain ⟨cs, e⟩ := st
    simp only at herr
    subst herr
    simp only at hraw
    rcases hraw with h | h | h
    · subst h
      rcases cs with _ | c
      · rfl
      · cases c <;> rfl
    · subst h
      rcases cs with _ | c
      · rfl
      · cases c <;> rfl
    · subst h
      rcases cs with _ | c
      · rfl
      · cases c <;> rfl

/-- Environment of the first C9 witness branch: status call errors. -/
def envC9a : Env :=
  { sigResp := .errored, txResp := .ok none, rawResp := .noResult, facResp := .unreachable }

/-- Environment of the second C9 witness branch: transaction call errors. -/
def envC9b : Env :=
  { sigResp := .ok (some { confirmationStatus := some .confirmed, err := false }),
    txResp := .errored, rawResp := .noResult, facResp := .unreachable }

/-- Environment of the third C9 witness branch: raw fallback errors. -/
def envC9c : Env :=
  { sigResp := .ok (some { confirmationStatus := some .confirmed, err := false }),
    txResp := .ok none, rawResp := .errored, facResp := .unreachable }

/-- C9 witness: the three fetch-failure branches at concrete environments. -/
theorem C9_amended_fetch_failures_witness :
    (verifyUSDCTransfer (fun _ _ => none) 1000 envC9a "S9").1 = .inconclusive ∧
    (verifyUSDCTransfer (fun _ _ => none) 1000 envC9b "S9").1 = .inconclusive ∧
    (verifyUSDCTransfer (fun _ _ => none) 1000 envC9c "S9").1 = .inconclusive := by
  refine ⟨?_, ?_, ?_⟩
  · exact (C9_amended_fetch_failures (fun _ _ => none) 1000 envC9a "S9").1 rfl
  · exact (C9_amended_fetch_failures (fun _ _ => none) 1000 envC9b "S9").2.1
      { confirmationStatus := some .confirmed, err := false } rfl rfl rfl
  · exact (C9_amended_fetch_failures (fun _ _ => none) 1000 envC9c "S9").2.2
      { confirmationStatus := some .confirmed, err := false } rfl rfl rfl (Or.inl rfl)

end Promptr
